import Mathlib

/-!
Verification of the ZomatoAI application (memory system, agent orchestration,
food database) against its natural-language specification.

The Python sources are shallowly embedded:
* `memory_system.py`  — `Memory`, `add_order`, `add_feedback`,
  `consolidate_oldest_feedback`, `update_preferences`, `get_memory_context`.
* `agent_system.py`   — `extract_xml_content`, `execute_pandas_query`,
  `format_filtered_data`, `process_query`.
* `food_database.py`  — `create_food_database`, `get_food_database`.

Modelling conventions:
* Python strings are Lean `String`s (or `List Char` where index arithmetic
  is needed); `str.strip()` is `pyStrip`, `str.find` is `strFind`.
* The `float` ratings used by the repository are always one-decimal values
  (5.0, 4.5, ...); they are embedded as tenths (`Nat`), rendered as Python
  renders those floats ("5.0", "4.5").
* File persistence (`_save_memory`) has no effect on the in-memory record,
  so the mutating methods are embedded as pure state transformers.
* Calls to the external generative model are embedded as abstract outcomes
  (`CallOutcome`): the model's answer is an input of `process_query`.
* `eval` of an LLM-supplied pandas expression is embedded as an abstract
  evaluation oracle `String → Except String PyVal` passed to
  `execute_pandas_query`.
-/

namespace ZomatoAI

/-! ### Python string primitives -/

/-- The whitespace characters stripped by Python's `str.strip()`
(ASCII fragment, the only ones that can occur here). -/
def isPySpace (c : Char) : Bool :=
  c = ' ' || c = '\t' || c = '\n' || c = '\x0d' || c = '\x0b' || c = '\x0c'

/-- Python `str.strip()` on a character list. -/
def pyStrip (s : List Char) : List Char :=
  ((s.dropWhile isPySpace).reverse.dropWhile isPySpace).reverse

/-- Python `str.strip()` on a `String`. -/
def pyStripS (s : String) : String :=
  (pyStrip s.toList).asString

/-- Python `text.find(pat)`: index of the first occurrence of `pat` in `s`,
`none` standing for Python's `-1`. -/
def strFind : List Char → List Char → Option Nat
  | s, pat =>
    if pat.isPrefixOf s then some 0
    else
      match s with
      | [] => none
      | _ :: tl => (strFind tl pat).map Nat.succ

/-- Python `s.startswith(pre)`. -/
def pyStartsWith (s pre : String) : Bool :=
  pre.toList.isPrefixOf s.toList

/-- Python `s.endswith(suf)`. -/
def pyEndsWith (s suf : String) : Bool :=
  suf.toList.reverse.isPrefixOf s.toList.reverse

/-- Python `s.split(sep)` on character lists (non-regex, keeps empty
fields), fuelled so that the recursion is structural; fuel is the input
length, which the recursion never exhausts. -/
def splitOnSepFuel (sep : List Char) : Nat → List Char → List (List Char)
  | _, [] => [[]]
  | 0, s => [s]
  | Nat.succ n, c :: rest =>
    if sep.isPrefixOf (c :: rest) && !sep.isEmpty then
      [] :: splitOnSepFuel sep n ((c :: rest).drop sep.length)
    else
      match splitOnSepFuel sep n rest with
      | [] => [[c]]
      | g :: gs => (c :: g) :: gs

/-- Python `s.split(sep)` for a non-empty separator. -/
def pySplitOn (s sep : String) : List String :=
  (splitOnSepFuel sep.toList s.toList.length s.toList).map List.asString

/-! ### memory_system.py : data model -/

/-- One entry of `memory["recent_feedbacks"]`
(dict built in `MemorySystem.add_feedback`). -/
structure FeedbackEntry where
  dish_id : String
  dish_name : String
  feedback : String
  /-- rating is a Python one-decimal float, stored as tenths. -/
  rating : Nat
  timestamp : String
deriving DecidableEq

instance : Inhabited FeedbackEntry := ⟨⟨"", "", "", 0, ""⟩⟩

/-- One entry of `memory["order_history"]`
(dict built in `MemorySystem.add_order`). -/
structure Order where
  dish_id : String
  dish_name : String
  restaurant : String
  price : Int
  timestamp : String
deriving DecidableEq

/-- The per-user record held in `MemorySystem.memory`. -/
structure Memory where
  user_id : String
  order_history : List Order
  recent_feedbacks : List FeedbackEntry
  consolidated_feedback : String
  preferences : List (String × String)
  created_at : String
deriving DecidableEq

/-- `MemorySystem._load_memory` when no file exists: the fresh record. -/
def mkFreshMemory (user_id created_at : String) : Memory :=
  { user_id := user_id
    order_history := []
    recent_feedbacks := []
    consolidated_feedback := ""
    preferences := []
    created_at := created_at }

/-- Python `str(x)` for the one-decimal floats used in this repository,
with the value stored as tenths (45 ↦ "4.5"). -/
def tenthsStr (r : Nat) : String :=
  toString (r / 10) ++ "." ++ toString (r % 10)

/-! ### memory_system.py : operations -/

/-- `MemorySystem.add_order`: unconditionally append one order dict. -/
def add_order (m : Memory) (dish_id dish_name restaurant : String)
    (price : Int) (timestamp : String) : Memory :=
  { m with order_history :=
      m.order_history ++
        [{ dish_id := dish_id, dish_name := dish_name,
           restaurant := restaurant, price := price, timestamp := timestamp }] }

/-- The summary line built in `MemorySystem._consolidate_oldest_feedback`. -/
def feedback_summary_line (fb : FeedbackEntry) : String :=
  "• " ++ fb.dish_name ++ ": " ++ fb.feedback ++
    " (Rating: " ++ tenthsStr fb.rating ++ "/5) - " ++ fb.timestamp.take 10

/-- `MemorySystem._consolidate_oldest_feedback`: pop the oldest recent
feedback and append its summary line to the consolidated string.  The
source pops unconditionally; its only call site guarantees the list is
nonempty, so the empty case (unreachable) returns the record unchanged. -/
def consolidate_oldest_feedback (m : Memory) : Memory :=
  match m.recent_feedbacks with
  | [] => m
  | oldest :: rest =>
    { m with
      recent_feedbacks := rest
      consolidated_feedback :=
        if m.consolidated_feedback ≠ "" then
          m.consolidated_feedback ++ "\n" ++ feedback_summary_line oldest
        else
          "Older Feedback Summary:\n" ++ feedback_summary_line oldest }

/-- `MemorySystem.add_feedback`: append the entry, then consolidate the
oldest one when the window holds more than 10 entries. -/
def add_feedback (m : Memory) (e : FeedbackEntry) : Memory :=
  let m1 : Memory := { m with recent_feedbacks := m.recent_feedbacks ++ [e] }
  if m1.recent_feedbacks.length > 10 then consolidate_oldest_feedback m1 else m1

/-- `MemorySystem.update_preferences`: Python `dict.update` on the
preferences mapping (replace in place when the key exists, else append,
preserving insertion order). -/
def dictUpdate (d : List (String × String)) (upds : List (String × String)) :
    List (String × String) :=
  upds.foldl
    (fun acc kv =>
      if acc.any (fun p => p.1 = kv.1) then
        acc.map (fun p => if p.1 = kv.1 then (p.1, kv.2) else p)
      else acc ++ [kv])
    d

/-- `MemorySystem.update_preferences`. -/
def update_preferences (m : Memory) (prefs : List (String × String)) : Memory :=
  { m with preferences := dictUpdate m.preferences prefs }

/-- `MemorySystem.get_memory_context`: build `context_parts` exactly as the
Python method does (sequential appends guarded by truthiness), then join
with newlines or fall back to the placeholder. -/
def get_memory_context (m : Memory) : String :=
  let parts : List String := []
  let parts :=
    if m.preferences ≠ [] then
      m.preferences.foldl
        (fun acc kv => acc ++ ["  - " ++ kv.1 ++ ": " ++ kv.2])
        (parts ++ ["User Preferences:"])
    else parts
  let parts :=
    if m.order_history ≠ [] then
      (m.order_history.drop (m.order_history.length - 5)).foldl
        (fun acc o =>
          acc ++ ["  - " ++ o.dish_name ++ " from " ++ o.restaurant ++
            " on " ++ o.timestamp.take 10])
        (parts ++ ["\nOrder History (Total: " ++
          toString m.order_history.length ++ " orders):"])
    else parts
  let parts :=
    if m.recent_feedbacks ≠ [] then
      m.recent_feedbacks.foldl
        (fun acc fb =>
          acc ++ ["  - " ++ fb.dish_name ++ ": " ++ fb.feedback ++
            " (Rating: " ++ tenthsStr fb.rating ++ "/5) - " ++
            fb.timestamp.take 10])
        (parts ++ ["\nRecent Feedback (Last " ++
          toString m.recent_feedbacks.length ++ " items):"])
    else parts
  let parts :=
    if m.consolidated_feedback ≠ "" then
      parts ++ ["\n" ++ m.consolidated_feedback]
    else parts
  if parts ≠ [] then String.intercalate "\n" parts else "No previous history."

/-! Spec-side renderer for the refinement claim about `get_memory_context`:
four sections in the spec's fixed order, each omitted when its component is
empty, with the placeholder when everything is empty. -/

/-- Spec words: the preferences section (omitted when empty). -/
def specPrefSection (m : Memory) : List String :=
  if m.preferences = [] then []
  else "User Preferences:" ::
    m.preferences.map (fun kv => "  - " ++ kv.1 ++ ": " ++ kv.2)

/-- Spec words: the last-5-orders section (omitted when empty). -/
def specOrderSection (m : Memory) : List String :=
  if m.order_history = [] then []
  else ("\nOrder History (Total: " ++ toString m.order_history.length ++
      " orders):") ::
    (m.order_history.drop (m.order_history.length - 5)).map
      (fun o => "  - " ++ o.dish_name ++ " from " ++ o.restaurant ++
        " on " ++ o.timestamp.take 10)

/-- Spec words: the recent-window section (omitted when empty). -/
def specFeedbackSection (m : Memory) : List String :=
  if m.recent_feedbacks = [] then []
  else ("\nRecent Feedback (Last " ++ toString m.recent_feedbacks.length ++
      " items):") ::
    m.recent_feedbacks.map
      (fun fb => "  - " ++ fb.dish_name ++ ": " ++ fb.feedback ++
        " (Rating: " ++ tenthsStr fb.rating ++ "/5) - " ++ fb.timestamp.take 10)

/-- Spec words: the consolidated-summary section (omitted when empty). -/
def specConsolidatedSection (m : Memory) : List String :=
  if m.consolidated_feedback = "" then []
  else ["\n" ++ m.consolidated_feedback]

/-- Spec words (`getContext`): render preferences, last 5 orders, the recent
window, then the consolidated string, in that fixed order, omitting empty
sections; a fixed placeholder when nothing exists at all. -/
def getContextSpec (m : Memory) : String :=
  let sections :=
    specPrefSection m ++ specOrderSection m ++ specFeedbackSection m ++
      specConsolidatedSection m
  if sections = [] then "No previous history."
  else String.intercalate "\n" sections

/-! ### Sequences of mutations on a memory record -/

/-- One mutating call on a `MemorySystem`. -/
inductive MemOp where
  | order (dish_id dish_name restaurant : String) (price : Int)
      (timestamp : String)
  | feedback (e : FeedbackEntry)
  | prefs (upds : List (String × String))
deriving DecidableEq

/-- Apply one mutating call. -/
def applyOp (m : Memory) : MemOp → Memory
  | .order did dn r p t => add_order m did dn r p t
  | .feedback e => add_feedback m e
  | .prefs u => update_preferences m u

/-- Apply a sequence of mutating calls, oldest first. -/
def applyOps (m : Memory) (ops : List MemOp) : Memory :=
  ops.foldl applyOp m

/-- Fold `add_feedback` over a list of entries, oldest first. -/
def addFeedbacks (m : Memory) (es : List FeedbackEntry) : Memory :=
  es.foldl add_feedback m

/-! ### food_database.py : data model -/

/-- The `tags` cell of a row: a Python list of strings in the DataFrame
built by `create_food_database`, or the plain string that `pd.read_csv`
yields for that cell after a CSV round trip. -/
inductive TagsVal where
  | strs (ts : List String)
  | raw (s : String)
deriving DecidableEq

/-- One row of the food DataFrame. -/
structure Dish where
  dish_id : String
  dish_name : String
  restaurant : String
  cuisine : String
  category : String
  price : Int
  /-- one-decimal float rating, stored as tenths. -/
  rating : Nat
  dietary : String
  spice_level : String
  prep_time_mins : Int
  tags : TagsVal
  description : String
deriving DecidableEq

/-- `create_food_database`: the 20 hard-coded seed dishes, in order. -/
def create_food_database : List Dish :=
  [ ⟨"D001", "Butter Chicken", "Punjab Grill", "North Indian", "Main Course",
      380, 45, "Non-Vegetarian", "Medium", 25, .strs ["Creamy", "Popular", "Rich"],
      "Tender chicken in rich tomato-butter gravy"⟩
  , ⟨"D002", "Paneer Tikka Masala", "Punjab Grill", "North Indian", "Main Course",
      320, 44, "Vegetarian", "Medium", 20, .strs ["Creamy", "Popular", "Protein-Rich"],
      "Grilled cottage cheese in spiced tomato gravy"⟩
  , ⟨"D003", "Margherita Pizza", "Pizza Hub", "Italian", "Main Course",
      280, 43, "Vegetarian", "None", 18, .strs ["Cheesy", "Classic", "Quick"],
      "Classic pizza with mozzarella and basil"⟩
  , ⟨"D004", "Chicken Biryani", "Biryani Blues", "Hyderabadi", "Main Course",
      350, 47, "Non-Vegetarian", "Medium", 30, .strs ["Aromatic", "Filling", "Traditional"],
      "Fragrant basmati rice with tender chicken"⟩
  , ⟨"D005", "Veg Hakka Noodles", "Wok Express", "Chinese", "Main Course",
      180, 42, "Vegetarian", "Medium", 15, .strs ["Quick", "Light", "Stir-Fried"],
      "Stir-fried noodles with vegetables"⟩
  , ⟨"D006", "Masala Dosa", "South Spice", "South Indian", "Main Course",
      120, 46, "Vegetarian", "Medium", 20, .strs ["Crispy", "Traditional", "Healthy"],
      "Crispy rice crepe with spiced potato filling"⟩
  , ⟨"D007", "Chicken Fried Rice", "Wok Express", "Chinese", "Main Course",
      220, 43, "Non-Vegetarian", "Low", 15, .strs ["Quick", "Filling", "Savory"],
      "Stir-fried rice with chicken and vegetables"⟩
  , ⟨"D008", "Chocolate Brownie", "Dessert Dreams", "Continental", "Dessert",
      150, 45, "Vegetarian", "None", 10, .strs ["Sweet", "Chocolatey", "Indulgent"],
      "Rich chocolate brownie with ice cream"⟩
  , ⟨"D009", "Caesar Salad", "Healthy Bites", "Continental", "Appetizer",
      200, 41, "Non-Vegetarian", "None", 10, .strs ["Healthy", "Fresh", "Light"],
      "Crisp romaine with Caesar dressing and chicken"⟩
  , ⟨"D010", "Gulab Jamun", "Sweet Tooth", "Indian", "Dessert",
      80, 44, "Vegetarian", "None", 5, .strs ["Sweet", "Traditional", "Popular"],
      "Deep-fried milk balls in sugar syrup"⟩
  , ⟨"D011", "Fish Curry", "Coastal Kitchen", "Coastal", "Main Course",
      400, 46, "Non-Vegetarian", "High", 25, .strs ["Spicy", "Tangy", "Traditional"],
      "Fresh fish in coconut-based spicy curry"⟩
  , ⟨"D012", "Veg Burger", "Burger Town", "American", "Main Course",
      150, 40, "Vegetarian", "Low", 12, .strs ["Quick", "Filling", "Casual"],
      "Vegetable patty with fresh veggies and sauces"⟩
  , ⟨"D013", "Chole Bhature", "Punjabi Zaika", "North Indian", "Main Course",
      140, 45, "Vegetarian", "Medium", 20, .strs ["Filling", "Traditional", "Popular"],
      "Spicy chickpea curry with fried bread"⟩
  , ⟨"D014", "Pad Thai", "Thai Basil", "Thai", "Main Course",
      320, 44, "Non-Vegetarian", "Medium", 20, .strs ["Tangy", "Sweet", "Exotic"],
      "Stir-fried rice noodles with shrimp and peanuts"⟩
  , ⟨"D015", "Idli Sambar", "South Spice", "South Indian", "Main Course",
      100, 45, "Vegetarian", "Low", 15, .strs ["Healthy", "Light", "Traditional"],
      "Steamed rice cakes with lentil soup"⟩
  , ⟨"D016", "Chicken Wings", "Wings & Things", "American", "Appetizer",
      280, 43, "Non-Vegetarian", "High", 18, .strs ["Spicy", "Crispy", "Popular"],
      "Crispy chicken wings with hot sauce"⟩
  , ⟨"D017", "Paneer Wrap", "Quick Bites", "Fusion", "Main Course",
      160, 42, "Vegetarian", "Medium", 10, .strs ["Quick", "Filling", "Portable"],
      "Grilled paneer with veggies in wrap"⟩
  , ⟨"D018", "Mutton Rogan Josh", "Kashmir Kitchen", "Kashmiri", "Main Course",
      450, 47, "Non-Vegetarian", "High", 35, .strs ["Rich", "Aromatic", "Premium"],
      "Tender mutton in aromatic red curry"⟩
  , ⟨"D019", "Mango Lassi", "Lassi Corner", "Indian", "Beverage",
      80, 46, "Vegetarian", "None", 5, .strs ["Refreshing", "Sweet", "Cooling"],
      "Yogurt-based mango drink"⟩
  , ⟨"D020", "Veg Thali", "Rajdhani Thali", "Rajasthani", "Main Course",
      300, 46, "Vegetarian", "Medium", 25, .strs ["Complete Meal", "Variety", "Traditional"],
      "Complete meal with dal, vegetables, roti, rice, dessert"⟩ ]

/-- Python `repr` of a list of strings, as written into a CSV cell by
`df.to_csv` for the `tags` column. -/
def pyReprStrList (ts : List String) : String :=
  "[" ++ String.intercalate ", " (ts.map (fun t => "\x27" ++ t ++ "\x27")) ++ "]"

/-- The effect of the CSV round trip on one row: `to_csv` writes the tags
list as its `repr`; `read_csv` yields that cell back as a plain string.
All other columns survive unchanged (string, int and one-decimal float
columns round-trip exactly). -/
def dishToCsvRow (d : Dish) : Dish :=
  { d with tags := match d.tags with
      | .strs ts => .raw (pyReprStrList ts)
      | t => t }

/-- `save_database_to_csv`: the file contents produced from a DataFrame. -/
def save_database_to_csv (df : List Dish) : List Dish :=
  df.map dishToCsvRow

/-- `load_database_from_csv`: `pd.read_csv` on the stored file. -/
def load_database_from_csv (csv : List Dish) : List Dish :=
  csv

/-- `get_food_database`, as a transformer of the backing store (the
optional contents of `food_database.csv`): load the CSV when it exists,
otherwise create the seed DataFrame, save it, and return it. -/
def get_food_database : Option (List Dish) → List Dish × Option (List Dish)
  | some csv => (load_database_from_csv csv, some csv)
  | none =>
    let df := create_food_database
    (df, some (save_database_to_csv df))

/-! ### agent_system.py : XML extraction -/

/-- The f-string `f"<{tag}>"`. -/
def openTag (tag : List Char) : List Char :=
  '<' :: tag ++ ['>']

/-- The f-string `f"</{tag}>"`. -/
def closeTag (tag : List Char) : List Char :=
  '<' :: '/' :: tag ++ ['>']

/-- `AgentSystem._extract_xml_content` on character lists: find the first
`<tag>` and the first `</tag>`; when both occur, return the stripped slice
between them (Python slicing: empty when the bounds cross), else `None`. -/
def extract_xml_content_core (text tag : List Char) : Option (List Char) :=
  let start_tag := openTag tag
  let end_tag := closeTag tag
  match strFind text start_tag, strFind text end_tag with
  | some start_idx, some end_idx =>
    let a := start_idx + start_tag.length
    some (pyStrip ((text.drop a).take (end_idx - a)))
  | _, _ => none

/-- `AgentSystem._extract_xml_content` on `String`s. -/
def extract_xml_content (text tag : String) : Option String :=
  (extract_xml_content_core text.toList tag.toList).map List.asString

/-- Python truthiness of the optional extracted string
(`if pandas_query:`): `None` and the empty string are falsy. -/
def pyTruthy : Option String → Bool
  | some s => s ≠ ""
  | none => false

/-! ### agent_system.py : pandas query execution -/

/-- A Python value produced by `eval` of the LLM-supplied expression:
a DataFrame of dishes, or something that is not a DataFrame. -/
inductive PyVal where
  | df (rows : List Dish)
  | scalar (n : Int)
  | pystr (s : String)
deriving DecidableEq

/-- The query clean-up in `AgentSystem._execute_pandas_query`: strip, and
when the text starts with `#`, drop every line whose stripped form starts
with `#`. -/
def cleanQuery (query : String) : String :=
  let q := pyStripS query
  if pyStartsWith q "#" then
    String.intercalate "\n"
      ((pySplitOn q "\n").filter (fun line => !pyStartsWith (pyStripS line) "#"))
  else q

/-- `AgentSystem._execute_pandas_query`: clean the query, evaluate it with
the abstract evaluation oracle `evalFn` (standing for Python `eval` over
`{"food_df": food_df, "pd": pd}`), return the resulting DataFrame, or the
empty DataFrame when the result is not a DataFrame, or the empty DataFrame
plus the two printed error lines when evaluation raises. -/
def execute_pandas_query (evalFn : String → Except String PyVal)
    (query : String) : List Dish × List String :=
  let q := cleanQuery query
  match evalFn q with
  | .ok (.df rows) => (rows, [])
  | .ok _ => ([], [])
  | .error e =>
    ([], ["Error executing pandas query: " ++ e, "Query was: " ++ q])

/-! ### agent_system.py : formatting filtered rows -/

/-- Python `eval` applied to a CSV-round-tripped `tags` cell
(`eval(row['tags']) if isinstance(row['tags'], str) else row['tags']`):
it succeeds exactly on the list-of-string literals that the repository
writes into that column, and raises on any other string. -/
def pyParseStrList (s : String) : Except String (List String) :=
  if s = "[]" then .ok []
  else if pyStartsWith s "[\x27" && pyEndsWith s "\x27]" then
    .ok (pySplitOn ((s.drop 2).dropRight 2) "\x27, \x27")
  else .error ("eval failed on tags value: " ++ s)

/-- The tags expression inside `AgentSystem._format_filtered_data`. -/
def pyEvalTags : TagsVal → Except String (List String)
  | .strs ts => .ok ts
  | .raw s => pyParseStrList s

/-- One row's block in `AgentSystem._format_filtered_data`. -/
def dishBlock (d : Dish) (ts : List String) : String :=
  "**" ++ d.dish_name ++ "** - " ++ d.restaurant ++ "\n" ++
  "  Cuisine: " ++ d.cuisine ++ " | Category: " ++ d.category ++ "\n" ++
  "  Price: ₹" ++ toString d.price ++ " | Rating: " ++ tenthsStr d.rating ++ "/5\n" ++
  "  Dietary: " ++ d.dietary ++ " | Spice: " ++ d.spice_level ++ "\n" ++
  "  Description: " ++ d.description ++ "\n" ++
  "  Tags: " ++ String.intercalate ", " ts ++ "\n\n"

/-- `AgentSystem._format_filtered_data`.  The `eval` of a malformed tags
cell raises, and that exception is not caught anywhere in the method or in
its caller, hence the `Except` result. -/
def format_filtered_data (rows : List Dish) : Except String String :=
  if rows = [] then .ok "No matching dishes found in database."
  else
    rows.foldl
      (fun acc d => do
        let s ← acc
        let ts ← pyEvalTags d.tags
        pure (s ++ dishBlock d ts))
      (.ok ("Found " ++ toString rows.length ++ " matching dishes:\n\n"))

/-! ### agent_system.py : orchestration -/

/-- The outcome of one `chat.send_message` call: the call raises, returns
an invalid response (`None` or no `text` attribute), or returns text. -/
inductive CallOutcome where
  | raises (msg : String)
  | invalid
  | valid (text : String)
deriving DecidableEq

/-- A record of one external-model call made during `process_query`,
carrying the input that was sent. -/
inductive AgentCall where
  | handler (input : String)
  | recommender (input : String)
deriving DecidableEq

/-- The `debug_info` dictionary built by `process_query` (keys that are
set later in the flow modelled as `Option`s). -/
structure DebugInfo where
  query : String
  timestamp : String
  database_searched : Bool
  filtered_dishes_count : Nat
  handler_response : Option String
  pandas_query : Option String
  filtered_data_preview : Option String
  final_response : Option String
deriving DecidableEq

/-- The `debug_info` dictionary as first assembled at the top of
`process_query`. -/
def initialDebug (user_query now_iso : String) : DebugInfo :=
  { query := user_query, timestamp := now_iso, database_searched := false,
    filtered_dishes_count := 0, handler_response := none,
    pandas_query := none, filtered_data_preview := none,
    final_response := none }

/-- The f-string sent to the query-handler agent. -/
def mkHandlerInput (current_time user_query memory_context : String) : String :=
  "Current Time: " ++ current_time ++ "\n\nUser Query: " ++ user_query ++
  "\n\nUser Memory Context:\n" ++ memory_context ++
  "\n\nAnalyze the query and decide if we need to search the food database."

/-- The input assembled for the recommendation agent. -/
def mkRecommendationInput (current_time user_query memory_context
    filtered_data_context : String) : String :=
  let base := "Current Time: " ++ current_time ++ "\n\nUser Query: " ++
    user_query ++ "\n\nUser Memory Context:\n" ++ memory_context ++ "\n\n"
  let base :=
    if filtered_data_context ≠ "" then
      base ++ "\nAvailable Dishes (from database search):\n" ++
        filtered_data_context
    else base
  base ++ "\n\nProvide your personalized recommendation:"

/-- `AgentSystem.process_query`.  The two model-call outcomes and the
expression evaluator are inputs; the result is the returned
`(final_response, debug_info)` pair, or `.error` when an exception
escapes the method (Python has no handler around
`_format_filtered_data`); alongside it, the list of model calls made. -/
def process_query (hOut rOut : CallOutcome)
    (evalFn : String → Except String PyVal)
    (user_query memory_context current_time now_iso : String) :
    Except String (String × DebugInfo) × List AgentCall :=
  let debug0 : DebugInfo := initialDebug user_query now_iso
  let handler_input := mkHandlerInput current_time user_query memory_context
  let hCall := AgentCall.handler handler_input
  match hOut with
  | .raises e => (.ok ("Sorry, an error occurred: " ++ e, debug0), [hCall])
  | .invalid =>
    (.ok ("Sorry, I couldn\x27t process your query. Please try again.",
      debug0), [hCall])
  | .valid handler_text =>
    let debug1 := { debug0 with handler_response := some handler_text }
    let pq_opt := extract_xml_content handler_text "pandas_query"
    let _no_db_needed := extract_xml_content handler_text "no_database_needed"
    let afterFilter : Except String (String × DebugInfo) :=
      if pyTruthy pq_opt then
        let pq := pq_opt.getD ""
        let debug2 := { debug1 with
          database_searched := true
          pandas_query := some pq }
        let filtered_df := (execute_pandas_query evalFn pq).1
        let debug3 := { debug2 with
          filtered_dishes_count := filtered_df.length }
        match format_filtered_data filtered_df with
        | .error e => .error e
        | .ok fdc =>
          .ok (fdc,
            { debug3 with filtered_data_preview := some (fdc.take 500) })
      else .ok ("", debug1)
    match afterFilter with
    | .error e => (.error e, [hCall])
    | .ok (filtered_data_context, dbg) =>
      let recommendation_input := mkRecommendationInput current_time
        user_query memory_context filtered_data_context
      let rCall := AgentCall.recommender recommendation_input
      match rOut with
      | .raises e =>
        (.ok ("Sorry, an error occurred: " ++ e, dbg), [hCall, rCall])
      | .invalid =>
        (.ok ("Sorry, I couldn\x27t generate recommendations at this moment. Please try again.",
          dbg), [hCall, rCall])
      | .valid t =>
        (.ok (t, { dbg with final_response := some t }), [hCall, rCall])

/-- Whether a recorded call went to the query-handler agent. -/
def isHandlerCall : AgentCall → Bool
  | .handler _ => true
  | .recommender _ => false

/-- Whether a recorded call went to the recommendation agent. -/
def isRecommenderCall : AgentCall → Bool
  | .handler _ => false
  | .recommender _ => true

/-! ## Lemmas about the memory system -/

lemma add_feedback_recent_eq (m : Memory) (e : FeedbackEntry) :
    (add_feedback m e).recent_feedbacks =
      if m.recent_feedbacks.length + 1 > 10 then
        (m.recent_feedbacks ++ [e]).tail
      else m.recent_feedbacks ++ [e] := by
  cases hM : m.recent_feedbacks with
  | nil => simp [add_feedback, hM]
  | cons a M =>
    by_cases h : M.length + 1 + 1 > 10
    · simp [add_feedback, consolidate_oldest_feedback, hM, h]
    · simp [add_feedback, hM, h]

lemma add_feedback_consolidated_eq (m : Memory) (e : FeedbackEntry) :
    (add_feedback m e).consolidated_feedback =
      if m.recent_feedbacks.length + 1 > 10 then
        (if m.consolidated_feedback ≠ "" then
          m.consolidated_feedback ++ "\n" ++
            feedback_summary_line m.recent_feedbacks.headI
        else
          "Older Feedback Summary:\n" ++
            feedback_summary_line m.recent_feedbacks.headI)
      else m.consolidated_feedback := by
  cases hM : m.recent_feedbacks with
  | nil => simp [add_feedback, hM]
  | cons a M =>
    by_cases h : M.length + 1 + 1 > 10
    · simp [add_feedback, consolidate_oldest_feedback, hM, h]
    · simp [add_feedback, hM, h]

lemma add_feedback_order_history (m : Memory) (e : FeedbackEntry) :
    (add_feedback m e).order_history = m.order_history := by
  cases hM : m.recent_feedbacks with
  | nil => simp [add_feedback, hM]
  | cons a M =>
    by_cases h : M.length + 1 + 1 > 10
    · simp [add_feedback, consolidate_oldest_feedback, hM, h]
    · simp [add_feedback, hM, h]

lemma add_feedback_preferences (m : Memory) (e : FeedbackEntry) :
    (add_feedback m e).preferences = m.preferences := by
  cases hM : m.recent_feedbacks with
  | nil => simp [add_feedback, hM]
  | cons a M =>
    by_cases h : M.length + 1 + 1 > 10
    · simp [add_feedback, consolidate_oldest_feedback, hM, h]
    · simp [add_feedback, hM, h]

lemma add_feedback_length_le (m : Memory) (e : FeedbackEntry)
    (h : m.recent_feedbacks.length ≤ 10) :
    (add_feedback m e).recent_feedbacks.length ≤ 10 := by
  rw [add_feedback_recent_eq]
  split
  · simp
    omega
  · simp
    omega

lemma applyOp_length_le (m : Memory) (op : MemOp)
    (h : m.recent_feedbacks.length ≤ 10) :
    (applyOp m op).recent_feedbacks.length ≤ 10 := by
  cases op with
  | order did dn r p t => simpa [applyOp, add_order] using h
  | feedback e => exact add_feedback_length_le m e h
  | prefs u => simpa [applyOp, update_preferences] using h

lemma applyOps_length_le :
    ∀ (ops : List MemOp) (m : Memory), m.recent_feedbacks.length ≤ 10 →
      (applyOps m ops).recent_feedbacks.length ≤ 10 := by
  intro ops
  induction ops with
  | nil => intro m h; simpa [applyOps] using h
  | cons op ops ih =>
    intro m h
    have : applyOps m (op :: ops) = applyOps (applyOp m op) ops := rfl
    rw [this]
    exact ih _ (applyOp_length_le m op h)

/-- C1 claim, explicit sentence form. -/
theorem c1_window_bounded_and_single_consolidation :
    (∀ (user_id created_at : String) (ops : List MemOp),
      (applyOps (mkFreshMemory user_id created_at) ops).recent_feedbacks.length ≤ 10)
    ∧
    (∀ (m : Memory) (e : FeedbackEntry), m.recent_feedbacks.length ≤ 10 →
      (m.recent_feedbacks.length = 10 →
        (add_feedback m e).recent_feedbacks = m.recent_feedbacks.tail ++ [e]
        ∧ (add_feedback m e).consolidated_feedback =
            (if m.consolidated_feedback ≠ "" then
              m.consolidated_feedback ++ "\n" ++
                feedback_summary_line m.recent_feedbacks.headI
            else
              "Older Feedback Summary:\n" ++
                feedback_summary_line m.recent_feedbacks.headI))
      ∧ (m.recent_feedbacks.length < 10 →
        (add_feedback m e).recent_feedbacks = m.recent_feedbacks ++ [e]
        ∧ (add_feedback m e).consolidated_feedback = m.consolidated_feedback)) := by
  constructor
  · intro user_id created_at ops
    apply applyOps_length_le
    simp [mkFreshMemory]
  · intro m e _h
    constructor
    · intro h10
      constructor
      · rw [add_feedback_recent_eq]
        have : m.recent_feedbacks.length + 1 > 10 := by omega
        rw [if_pos this]
        cases hM : m.recent_feedbacks with
        | nil => rw [hM] at h10; simp at h10
        | cons a M => simp
      · rw [add_feedback_consolidated_eq]
        have : m.recent_feedbacks.length + 1 > 10 := by omega
        rw [if_pos this]
    · intro hlt
      constructor
      · rw [add_feedback_recent_eq]
        have : ¬ (m.recent_feedbacks.length + 1 > 10) := by omega
        rw [if_neg this]
      · rw [add_feedback_consolidated_eq]
        have : ¬ (m.recent_feedbacks.length + 1 > 10) := by omega
        rw [if_neg this]

/-- Witness for the hypotheses of the C1 theorem at a concrete memory. -/
theorem c1_window_bounded_witness :
    (List.replicate 10 (⟨"D001", "X", "good", 50, "2024-01-01T00:00:00"⟩ :
        FeedbackEntry)).length ≤ 10
    ∧ ((mkFreshMemory "u" "t").recent_feedbacks.length < 10 →
        (add_feedback (mkFreshMemory "u" "t")
            ⟨"D002", "Y", "ok", 40, "2024-01-02T00:00:00"⟩).recent_feedbacks =
          (mkFreshMemory "u" "t").recent_feedbacks ++
            [⟨"D002", "Y", "ok", 40, "2024-01-02T00:00:00"⟩]
        ∧ (add_feedback (mkFreshMemory "u" "t")
            ⟨"D002", "Y", "ok", 40, "2024-01-02T00:00:00"⟩).consolidated_feedback =
          (mkFreshMemory "u" "t").consolidated_feedback) :=
  ⟨by decide,
    (c1_window_bounded_and_single_consolidation.2 (mkFreshMemory "u" "t")
      ⟨"D002", "Y", "ok", 40, "2024-01-02T00:00:00"⟩ (by decide)).2⟩

lemma add_feedback_drop (M : List FeedbackEntry) (m : Memory) (e : FeedbackEntry)
    (h : m.recent_feedbacks = M.drop (M.length - 10)) :
    (add_feedback m e).recent_feedbacks =
      (M ++ [e]).drop ((M ++ [e]).length - 10) := by
  rw [add_feedback_recent_eq, h]
  by_cases hM : M.length ≥ 10
  · have hcond : (M.drop (M.length - 10)).length + 1 > 10 := by
      rw [List.length_drop]; omega
    rw [if_pos hcond]
    have hA : M.drop (M.length - 10) ≠ [] := by
      intro hnil
      have := congrArg List.length hnil
      rw [List.length_drop] at this
      simp at this
      omega
    have h1 : (M.drop (M.length - 10) ++ [e]).tail =
        (M.drop (M.length - 10)).tail ++ [e] := by
      cases hd : M.drop (M.length - 10) with
      | nil => exact absurd hd hA
      | cons a A => simp
    rw [h1, List.tail_drop]
    have hle : M.length - 10 + 1 ≤ M.length := by omega
    rw [← @List.drop_append_of_le_length _ M [e] (M.length - 10 + 1) hle]
    congr 1
    simp
    omega
  · have h0 : M.length - 10 = 0 := by omega
    rw [h0, List.drop_zero]
    have hcond : ¬ (M.length + 1 > 10) := by omega
    rw [if_neg hcond]
    have : (M ++ [e]).length - 10 = 0 := by simp; omega
    rw [this, List.drop_zero]

lemma addFeedbacks_drop :
    ∀ (es M : List FeedbackEntry) (m : Memory),
      m.recent_feedbacks = M.drop (M.length - 10) →
      (addFeedbacks m es).recent_feedbacks =
        (M ++ es).drop ((M ++ es).length - 10) := by
  intro es
  induction es with
  | nil => intro M m h; simpa [addFeedbacks] using h
  | cons e es ih =>
    intro M m h
    have hstep := add_feedback_drop M m e h
    have heq : addFeedbacks m (e :: es) = addFeedbacks (add_feedback m e) es := rfl
    rw [heq]
    have := ih (M ++ [e]) (add_feedback m e) hstep
    simpa [List.append_assoc] using this

/-- C4: after exactly N `add_feedback` calls on a fresh record, the recent
window is the last min(N, 10) inserted entries, in insertion order. -/
theorem c4_recent_window_contents (user_id created_at : String)
    (es : List FeedbackEntry) :
    (addFeedbacks (mkFreshMemory user_id created_at) es).recent_feedbacks =
      es.drop (es.length - 10)
    ∧ (addFeedbacks (mkFreshMemory user_id created_at) es).recent_feedbacks.length =
      min es.length 10 := by
  have h := addFeedbacks_drop es [] (mkFreshMemory user_id created_at)
    (by simp [mkFreshMemory])
  simp at h
  refine ⟨h, ?_⟩
  rw [h, List.length_drop]
  omega

lemma addFeedbacks_no_overflow :
    ∀ (es : List FeedbackEntry) (m : Memory),
      m.recent_feedbacks.length + es.length ≤ 10 →
      (addFeedbacks m es).recent_feedbacks = m.recent_feedbacks ++ es
      ∧ (addFeedbacks m es).consolidated_feedback = m.consolidated_feedback := by
  intro es
  induction es with
  | nil => intro m _; simp [addFeedbacks]
  | cons e es ih =>
    intro m h
    simp at h
    have hrec : (add_feedback m e).recent_feedbacks =
        m.recent_feedbacks ++ [e] := by
      rw [add_feedback_recent_eq, if_neg]; omega
    have hcons : (add_feedback m e).consolidated_feedback =
        m.consolidated_feedback := by
      rw [add_feedback_consolidated_eq, if_neg]; omega
    have h2 : (add_feedback m e).recent_feedbacks.length + es.length ≤ 10 := by
      rw [hrec]; simp; omega
    have heq : addFeedbacks m (e :: es) = addFeedbacks (add_feedback m e) es := rfl
    rw [heq]
    have := ih (add_feedback m e) h2
    rw [hrec, hcons] at this
    simpa [List.append_assoc] using this

lemma applyOp_consolidated_mono (m : Memory) (op : MemOp) :
    m.consolidated_feedback.length ≤ (applyOp m op).consolidated_feedback.length := by
  cases op with
  | order did dn r p t => simp [applyOp, add_order]
  | prefs u => simp [applyOp, update_preferences]
  | feedback e =>
    show m.consolidated_feedback.length ≤
      (add_feedback m e).consolidated_feedback.length
    rw [add_feedback_consolidated_eq]
    split
    · split
      · simp [String.length_append]
        omega
      · rename_i hne
        simp at hne
        rw [hne]
        simp
    · exact Nat.le_refl _

lemma applyOps_consolidated_mono :
    ∀ (ops : List MemOp) (m : Memory),
      m.consolidated_feedback.length ≤
        (applyOps m ops).consolidated_feedback.length := by
  intro ops
  induction ops with
  | nil => intro m; exact Nat.le_refl _
  | cons op ops ih =>
    intro m
    have heq : applyOps m (op :: ops) = applyOps (applyOp m op) ops := rfl
    rw [heq]
    exact Nat.le_trans (applyOp_consolidated_mono m op) (ih (applyOp m op))

/-- C5: on a fresh record holding exactly 10 feedback entries, one more
`add_feedback` removes exactly the first-inserted entry and sets the
consolidated summary to the header plus that entry's line; and no
operation ever shrinks the consolidated summary. -/
theorem c5_eleventh_feedback_consolidates :
    (∀ (user_id created_at : String) (es : List FeedbackEntry)
        (e : FeedbackEntry), es.length = 10 →
      (add_feedback (addFeedbacks (mkFreshMemory user_id created_at) es) e).recent_feedbacks
        = es.tail ++ [e]
      ∧ (add_feedback (addFeedbacks (mkFreshMemory user_id created_at) es) e).consolidated_feedback
        = "Older Feedback Summary:\n" ++ feedback_summary_line es.headI)
    ∧ (∀ (m : Memory) (ops : List MemOp),
        m.consolidated_feedback.length ≤
          (applyOps m ops).consolidated_feedback.length) := by
  constructor
  · intro user_id created_at es e hlen
    have h10 := addFeedbacks_no_overflow es (mkFreshMemory user_id created_at)
      (by simp [mkFreshMemory, hlen])
    have hrec : (addFeedbacks (mkFreshMemory user_id created_at) es).recent_feedbacks
        = es := by simpa [mkFreshMemory] using h10.1
    have hcons : (addFeedbacks (mkFreshMemory user_id created_at) es).consolidated_feedback
        = "" := by simpa [mkFreshMemory] using h10.2
    constructor
    · rw [add_feedback_recent_eq, hrec, hlen, if_pos (by omega)]
      cases es with
      | nil => simp at hlen
      | cons a A => simp
    · rw [add_feedback_consolidated_eq, hrec, hcons, hlen, if_pos (by omega)]
      simp
  · exact fun m ops => applyOps_consolidated_mono ops m

/-- Witness for the hypothesis of the C5 theorem at a concrete
ten-entry insertion sequence. -/
theorem c5_eleventh_feedback_witness :
    (List.replicate 10 (⟨"D001", "X", "good", 50, "2024-01-01T00:00:00"⟩ :
        FeedbackEntry)).length = 10
    ∧ ((add_feedback (addFeedbacks (mkFreshMemory "u" "t")
          (List.replicate 10 (⟨"D001", "X", "good", 50, "2024-01-01T00:00:00"⟩ :
            FeedbackEntry)))
          ⟨"D002", "Y", "ok", 40, "2024-01-02T00:00:00"⟩).recent_feedbacks
        = (List.replicate 10 (⟨"D001", "X", "good", 50, "2024-01-01T00:00:00"⟩ :
            FeedbackEntry)).tail ++ [⟨"D002", "Y", "ok", 40, "2024-01-02T00:00:00"⟩]
      ∧ (add_feedback (addFeedbacks (mkFreshMemory "u" "t")
          (List.replicate 10 (⟨"D001", "X", "good", 50, "2024-01-01T00:00:00"⟩ :
            FeedbackEntry)))
          ⟨"D002", "Y", "ok", 40, "2024-01-02T00:00:00"⟩).consolidated_feedback
        = "Older Feedback Summary:\n" ++
            feedback_summary_line (List.replicate 10
              (⟨"D001", "X", "good", 50, "2024-01-01T00:00:00"⟩ :
                FeedbackEntry)).headI) :=
  ⟨by decide,
    c5_eleventh_feedback_consolidates.1 "u" "t"
      (List.replicate 10 ⟨"D001", "X", "good", 50, "2024-01-01T00:00:00"⟩)
      ⟨"D002", "Y", "ok", 40, "2024-01-02T00:00:00"⟩ (by decide)⟩

/-- C9: each mutation touches only its own section of the record. -/
theorem c9_mutation_frame :
    (∀ (m : Memory) (did dn r : String) (p : Int) (t : String),
      (add_order m did dn r p t).recent_feedbacks = m.recent_feedbacks
      ∧ (add_order m did dn r p t).consolidated_feedback = m.consolidated_feedback
      ∧ (add_order m did dn r p t).preferences = m.preferences)
    ∧ (∀ (m : Memory) (e : FeedbackEntry),
      (add_feedback m e).order_history = m.order_history
      ∧ (add_feedback m e).preferences = m.preferences)
    ∧ (∀ (m : Memory) (u : List (String × String)),
      (update_preferences m u).order_history = m.order_history
      ∧ (update_preferences m u).recent_feedbacks = m.recent_feedbacks
      ∧ (update_preferences m u).consolidated_feedback = m.consolidated_feedback) := by
  refine ⟨?_, ?_, ?_⟩
  · intro m did dn r p t
    exact ⟨rfl, rfl, rfl⟩
  · intro m e
    exact ⟨add_feedback_order_history m e, add_feedback_preferences m e⟩
  · intro m u
    exact ⟨rfl, rfl, rfl⟩

lemma foldl_append_map {α : Type} (f : α → String) :
    ∀ (l : List α) (init : List String),
      l.foldl (fun acc x => acc ++ [f x]) init = init ++ l.map f := by
  intro l
  induction l with
  | nil => intro init; simp
  | cons a l ih =>
    intro init
    simp only [List.foldl_cons, List.map_cons, ih, List.append_assoc,
      List.singleton_append]

/-- C7: `get_memory_context` renders preferences, the last five orders,
the recent window, then the consolidated string, in that fixed order,
omitting empty sections; a brand-new record yields exactly the
"No previous history." placeholder. -/
theorem c7_get_memory_context_rendering :
    (∀ m : Memory, get_memory_context m = getContextSpec m)
    ∧ (∀ user_id created_at : String,
        get_memory_context (mkFreshMemory user_id created_at) =
          "No previous history.") := by
  have hmain : ∀ m : Memory, get_memory_context m = getContextSpec m := by
    intro m
    by_cases h1 : m.preferences = [] <;>
      by_cases h2 : m.order_history = [] <;>
        by_cases h3 : m.recent_feedbacks = [] <;>
          by_cases h4 : m.consolidated_feedback = "" <;>
            simp [get_memory_context, getContextSpec, specPrefSection,
              specOrderSection, specFeedbackSection, specConsolidatedSection,
              foldl_append_map, h1, h2, h3, h4, List.append_assoc]
  refine ⟨hmain, fun user_id created_at => ?_⟩
  rw [hmain]
  simp [getContextSpec, mkFreshMemory, specPrefSection, specOrderSection,
    specFeedbackSection, specConsolidatedSection]

/-! ## Theorems about the food database -/

/-- C8 counterexample: starting from an absent backing file, the first
`get_food_database` call returns the seed rows (list-valued tags) and the
second call returns the CSV round-tripped rows (string-valued tags), so two
successive loads do not return identical field values. -/
theorem c8_counterexample_fresh_store :
    (get_food_database (get_food_database none).2).1 ≠
      (get_food_database none).1 := by
  decide

/-- C8 amended: when the backing CSV exists, `get_food_database` returns
exactly its rows and leaves the store unchanged (hence is idempotent and
deterministic); in general the results of the second and third calls always
agree, i.e. loading is stable from the second call on. -/
theorem c8_load_deterministic_when_file_exists (store : Option (List Dish)) :
    (∀ csv, store = some csv →
      (get_food_database store).1 = csv ∧ (get_food_database store).2 = store)
    ∧ (get_food_database (get_food_database store).2).1 =
        (get_food_database (get_food_database (get_food_database store).2).2).1 := by
  constructor
  · intro csv h
    subst h
    exact ⟨rfl, rfl⟩
  · cases store with
    | some csv => rfl
    | none => rfl

/-- Witness for the hypothesis of the amended C8 theorem at a concrete
backing store. -/
theorem c8_load_deterministic_witness :
    (some (save_database_to_csv create_food_database) =
      some (save_database_to_csv create_food_database))
    ∧ ((get_food_database (some (save_database_to_csv create_food_database))).1 =
        save_database_to_csv create_food_database
      ∧ (get_food_database (some (save_database_to_csv create_food_database))).2 =
        some (save_database_to_csv create_food_database)) :=
  ⟨rfl,
    (c8_load_deterministic_when_file_exists
      (some (save_database_to_csv create_food_database))).1
      (save_database_to_csv create_food_database) rfl⟩

/-! ## Theorems about pandas query execution -/

/-- C2 counterexample: when evaluation yields a non-DataFrame value, the
operation returns the empty DataFrame and reports nothing at all (no
printed lines, and nothing besides the DataFrame is returned to the
caller), refuting the claim that such a failure is reported. -/
theorem c2_counterexample_silent_non_dataframe :
    execute_pandas_query (fun _ => .ok (.scalar 42)) "food_df.shape" =
      ([], []) := rfl

/-- C2 amended: the filter operation never raises: on an evaluation error
it returns the empty DataFrame and prints (only to the log, not to the
caller) the two error lines; on a non-DataFrame result it silently returns
the empty DataFrame; on a DataFrame result it returns that DataFrame. -/
theorem c2_filter_never_raises (evalFn : String → Except String PyVal)
    (q : String) :
    (∀ e, evalFn (cleanQuery q) = .error e →
      execute_pandas_query evalFn q =
        ([], ["Error executing pandas query: " ++ e,
              "Query was: " ++ cleanQuery q]))
    ∧ (∀ v, evalFn (cleanQuery q) = .ok v → (∀ rows, v ≠ PyVal.df rows) →
        execute_pandas_query evalFn q = ([], []))
    ∧ (∀ rows, evalFn (cleanQuery q) = .ok (.df rows) →
        execute_pandas_query evalFn q = (rows, [])) := by
  refine ⟨?_, ?_, ?_⟩
  · intro e h
    unfold execute_pandas_query
    dsimp only
    rw [h]
  · intro v h hv
    unfold execute_pandas_query
    dsimp only
    rw [h]
    cases v with
    | df rows => exact absurd rfl (hv rows)
    | scalar n => rfl
    | pystr s => rfl
  · intro rows h
    unfold execute_pandas_query
    dsimp only
    rw [h]

/-- Witness for the hypotheses of the amended C2 theorem at a concrete
raising evaluation. -/
theorem c2_filter_never_raises_witness :
    ((fun _ : String => (.error "boom" : Except String PyVal))
        (cleanQuery "food_df") = .error "boom")
    ∧ execute_pandas_query (fun _ => .error "boom") "food_df" =
        ([], ["Error executing pandas query: " ++ "boom",
              "Query was: " ++ cleanQuery "food_df"]) :=
  ⟨rfl, (c2_filter_never_raises (fun _ => .error "boom") "food_df").1 "boom" rfl⟩

/-! ## Theorems about the orchestrator -/

/-- C3 counterexample: with a classification response carrying a filter
expression, an evaluation result whose `tags` cell is not a well-formed
list literal makes `_format_filtered_data`'s `eval(row['tags'])` raise,
and nothing in `process_query` catches it: the exception escapes the
orchestrator boundary (the `.error` result), refuting "never raises an
exception past its boundary". -/
theorem c3_counterexample_format_raises :
    process_query (.valid "<pandas_query>food_df</pandas_query>")
      (.valid "ok")
      (fun _ => .ok (.df [⟨"D001", "X", "R", "Cu", "Cat", 100, 40, "Veg",
        "Low", 5, .raw "Creamy", "d"⟩]))
      "q" "mc" "ct" "iso" =
      (.error "eval failed on tags value: Creamy",
        [.handler (mkHandlerInput "ct" "q" "mc")]) := by
  rfl

lemma process_query_calls_shape (hOut rOut : CallOutcome)
    (evalFn : String → Except String PyVal) (q mc ct iso : String) :
    (process_query hOut rOut evalFn q mc ct iso).2 =
      [AgentCall.handler (mkHandlerInput ct q mc)]
    ∨ ∃ rIn, (process_query hOut rOut evalFn q mc ct iso).2 =
        [AgentCall.handler (mkHandlerInput ct q mc),
         AgentCall.recommender rIn] := by
  cases hOut with
  | raises e => left; rfl
  | invalid => left; rfl
  | valid t =>
    by_cases hpq : pyTruthy (extract_xml_content t "pandas_query") = true
    · cases hfmt : format_filtered_data
        ((execute_pandas_query evalFn
          ((extract_xml_content t "pandas_query").getD "")).1) with
      | error e0 =>
        left
        cases rOut <;> simp [process_query, hpq, hfmt]
      | ok fdc =>
        right
        cases rOut <;>
          exact ⟨mkRecommendationInput ct q mc fdc,
            by simp [process_query, hpq, hfmt]⟩
    · right
      rw [Bool.not_eq_true] at hpq
      cases rOut <;>
        exact ⟨mkRecommendationInput ct q mc "",
          by simp [process_query, hpq]⟩

/-- C3 amended: each model call is made at most once (no retries); a
handler-call failure is caught and converted into the user-facing error
message; a recommendation-call failure, whenever the run reaches it
without raising, is likewise caught and converted; and the only way an
exception escapes `process_query` is `_format_filtered_data` raising on a
filtered table (so with tag-extraction failure or model-call failure the
method never raises). -/
theorem c3_model_call_failures_contained (hOut rOut : CallOutcome)
    (evalFn : String → Except String PyVal) (q mc ct iso : String) :
    ((process_query hOut rOut evalFn q mc ct iso).2.countP isHandlerCall ≤ 1
      ∧ (process_query hOut rOut evalFn q mc ct iso).2.countP
          isRecommenderCall ≤ 1)
    ∧ (∀ e, hOut = .raises e →
        process_query hOut rOut evalFn q mc ct iso =
          (.ok ("Sorry, an error occurred: " ++ e, initialDebug q iso),
            [.handler (mkHandlerInput ct q mc)]))
    ∧ (∀ t e, hOut = .valid t → rOut = .raises e →
        (∀ msg, (process_query hOut rOut evalFn q mc ct iso).1 ≠ .error msg) →
        ∃ dbg, (process_query hOut rOut evalFn q mc ct iso).1 =
          .ok ("Sorry, an error occurred: " ++ e, dbg))
    ∧ (∀ msg, (process_query hOut rOut evalFn q mc ct iso).1 = .error msg →
        ∃ t, hOut = .valid t ∧
          format_filtered_data
            ((execute_pandas_query evalFn
              ((extract_xml_content t "pandas_query").getD "")).1) =
            .error msg) := by
  refine ⟨?_, ?_, ?_, ?_⟩
  · rcases process_query_calls_shape hOut rOut evalFn q mc ct iso with
      h | ⟨rIn, h⟩ <;>
      rw [h] <;>
      constructor <;>
      simp [List.countP, List.countP.go, isHandlerCall, isRecommenderCall]
  · intro e he
    subst he
    rfl
  · intro t e ht he hne
    subst ht
    subst he
    by_cases hpq : pyTruthy (extract_xml_content t "pandas_query") = true
    · cases hfmt : format_filtered_data
        ((execute_pandas_query evalFn
          ((extract_xml_content t "pandas_query").getD "")).1) with
      | error e0 =>
        exact absurd (by simp [process_query, hpq, hfmt]) (hne e0)
      | ok fdc =>
        refine ⟨{ initialDebug q iso with
            database_searched := true
            filtered_dishes_count :=
              (execute_pandas_query evalFn
                ((extract_xml_content t "pandas_query").getD "")).1.length
            handler_response := some t
            pandas_query := some ((extract_xml_content t "pandas_query").getD "")
            filtered_data_preview := some (fdc.take 500) }, ?_⟩
        simp [process_query, hpq, hfmt, initialDebug]
    · rw [Bool.not_eq_true] at hpq
      refine ⟨{ initialDebug q iso with handler_response := some t }, ?_⟩
      simp [process_query, hpq, initialDebug]
  · intro msg hmsg
    cases hOut with
    | raises e => simp [process_query] at hmsg
    | invalid => simp [process_query] at hmsg
    | valid t =>
      refine ⟨t, rfl, ?_⟩
      by_cases hpq : pyTruthy (extract_xml_content t "pandas_query") = true
      · cases hfmt : format_filtered_data
          ((execute_pandas_query evalFn
            ((extract_xml_content t "pandas_query").getD "")).1) with
        | error e0 =>
          have : (process_query (.valid t) rOut evalFn q mc ct iso).1 =
              .error e0 := by
            cases rOut <;> simp [process_query, hpq, hfmt]
          rw [this] at hmsg
          injection hmsg with h
          rw [← h]
        | ok fdc =>
          exfalso
          cases rOut <;> simp [process_query, hpq, hfmt] at hmsg
      · exfalso
        rw [Bool.not_eq_true] at hpq
        cases rOut <;> simp [process_query, hpq] at hmsg

/-- Witness for the hypotheses of the amended C3 theorem at a concrete
raising handler call. -/
theorem c3_model_call_failures_witness :
    (CallOutcome.raises "boom" = CallOutcome.raises "boom")
    ∧ process_query (.raises "boom") (.valid "ok")
        (fun _ => .ok (.df [])) "q" "mc" "ct" "iso" =
        (.ok ("Sorry, an error occurred: " ++ "boom",
          initialDebug "q" "iso"),
          [.handler (mkHandlerInput "ct" "q" "mc")]) :=
  ⟨rfl,
    (c3_model_call_failures_contained (.raises "boom") (.valid "ok")
      (fun _ => .ok (.df [])) "q" "mc" "ct" "iso").2.1 "boom" rfl⟩

/-- C6: a classification response containing neither recognized tag is not
an error: the run proceeds to the generation stage with an empty
filtered-data context (no "Available Dishes" block), the debug record
shows no database search, and a successful generation call yields its text
as the returned result. -/
theorem c6_no_tag_proceeds_to_generation (t : String) (rOut : CallOutcome)
    (evalFn : String → Except String PyVal) (q mc ct iso : String)
    (h1 : extract_xml_content t "pandas_query" = none)
    (_h2 : extract_xml_content t "no_database_needed" = none) :
    (process_query (.valid t) rOut evalFn q mc ct iso).2 =
      [.handler (mkHandlerInput ct q mc),
       .recommender (mkRecommendationInput ct q mc "")]
    ∧ (∀ r, rOut = .valid r →
        process_query (.valid t) rOut evalFn q mc ct iso =
          (.ok (r, { initialDebug q iso with
                      handler_response := some t,
                      final_response := some r }),
           [.handler (mkHandlerInput ct q mc),
            .recommender (mkRecommendationInput ct q mc "")])) := by
  have hpq : pyTruthy (extract_xml_content t "pandas_query") = false := by
    rw [h1]
    rfl
  constructor
  · cases rOut <;> simp [process_query, hpq]
  · intro r hr
    subst hr
    simp [process_query, hpq]

/-- Witness for the hypotheses of the C6 theorem at a concrete tag-free
classification response. -/
theorem c6_no_tag_witness :
    extract_xml_content "hello" "pandas_query" = none
    ∧ extract_xml_content "hello" "no_database_needed" = none
    ∧ ((process_query (.valid "hello") (.valid "rec")
          (fun _ => .ok (.df [])) "q" "mc" "ct" "iso").2 =
        [.handler (mkHandlerInput "ct" "q" "mc"),
         .recommender (mkRecommendationInput "ct" "q" "mc" "")]
      ∧ (∀ r, CallOutcome.valid "rec" = .valid r →
          process_query (.valid "hello") (.valid "rec")
            (fun _ => .ok (.df [])) "q" "mc" "ct" "iso" =
            (.ok (r, { initialDebug "q" "iso" with
                        handler_response := some "hello",
                        final_response := some r }),
             [.handler (mkHandlerInput "ct" "q" "mc"),
              .recommender (mkRecommendationInput "ct" "q" "mc" "")]))) :=
  ⟨by decide, by decide,
    c6_no_tag_proceeds_to_generation "hello" (.valid "rec")
      (fun _ => .ok (.df [])) "q" "mc" "ct" "iso" (by decide) (by decide)⟩

/-- C10: extraction returns None exactly when the opening or the closing
tag is absent; with both present it returns the stripped slice between the
first opening and first closing tag; and when the first closing tag
precedes the first opening tag the slice is empty, so the result is the
empty string, which the orchestrator's truthiness test treats exactly like
None. -/
theorem c10_extract_xml_content_cases (text tag : List Char) :
    (extract_xml_content_core text tag = none ↔
      (strFind text (openTag tag) = none
        ∨ strFind text (closeTag tag) = none))
    ∧ (∀ i j, strFind text (openTag tag) = some i →
        strFind text (closeTag tag) = some j →
        extract_xml_content_core text tag =
          some (pyStrip
            ((text.drop (i + (openTag tag).length)).take
              (j - (i + (openTag tag).length)))))
    ∧ (∀ i j, strFind text (openTag tag) = some i →
        strFind text (closeTag tag) = some j → j ≤ i →
        extract_xml_content_core text tag = some []
        ∧ pyTruthy ((extract_xml_content_core text tag).map List.asString)
          = pyTruthy none) := by
  refine ⟨?_, ?_, ?_⟩
  · cases h1 : strFind text (openTag tag) <;>
      cases h2 : strFind text (closeTag tag) <;>
        simp [extract_xml_content_core, h1, h2]
  · intro i j h1 h2
    simp [extract_xml_content_core, h1, h2]
  · intro i j h1 h2 hji
    have hlen : (openTag tag).length = tag.length + 2 := by simp [openTag]
    have hz : j - (i + (tag.length + 2)) = 0 := by omega
    have hext : extract_xml_content_core text tag = some [] := by
      simp [extract_xml_content_core, h1, h2, hlen, hz, pyStrip]
    refine ⟨hext, ?_⟩
    rw [hext]
    rfl

/-- Witness for the hypotheses of the C10 theorem at a concrete response
whose first closing tag precedes its first opening tag. -/
theorem c10_extract_xml_witness :
    (strFind "</a>x<a>".toList (openTag ['a']) = some 5
      ∧ strFind "</a>x<a>".toList (closeTag ['a']) = some 0
      ∧ (0 : Nat) ≤ 5)
    ∧ (extract_xml_content_core "</a>x<a>".toList ['a'] = some []
      ∧ pyTruthy ((extract_xml_content_core "</a>x<a>".toList ['a']).map
          List.asString) = pyTruthy none) :=
  ⟨⟨by decide, by decide, by decide⟩,
    (c10_extract_xml_content_cases "</a>x<a>".toList ['a']).2.2 5 0
      (by decide) (by decide) (by decide)⟩

end ZomatoAI
